import Mathlib

/-!
Verification development for the batch pixelation pipeline `pyx.py`.

The file gives a shallow embedding of the script:

* the path resolver (`exclude_hidden`, `with_extension`, `get_file_list`),
  where the Python global counter `f_excluded` is made an explicit argument;
* the status-bar helpers (`sec_to_time`, `bar_redraw`), where `t.process_time()`
  is an explicit input;
* the timing window push/evict logic (`timing_push`);
* the per-image body of the main loop (`stepImage`) and the loop itself
  (`runBatch`, `pyxMain`).

External collaborators (skimage decode/encode, the Pyxelate conversion) are
modelled as oracles: every image carries the outcome each opaque call would
produce (decode failure, a structural `IndexError`, a warning escalated to an
error by strict mode, a keyboard interrupt).  Python floats (`t.time()`,
`t.process_time()`) are modelled as rationals; `round` is modelled as
round-half-to-even on rationals.
-/

namespace Pyx

/-- Python `round(q)`: round half to even (bankers rounding), on a rational. -/
def pyRound (q : ℚ) : ℤ :=
  let f : ℤ := ⌊q⌋
  let r : ℚ := q - (f : ℚ)
  if r < 1/2 then f
  else if (1:ℚ)/2 < r then f + 1
  else if f % 2 = 0 then f else f + 1

/-- Python `round(q, 1)`: round to one decimal digit. -/
def pyRound1 (q : ℚ) : ℚ := (pyRound (q * 10) : ℚ) / 10

/-- Python format `{:02d}`: pad the decimal representation with zeros to width 2. -/
def pad2 (n : ℤ) : String :=
  let s := toString n
  if s.length < 2 then String.mk (List.replicate (2 - s.length) '0') ++ s else s

/-- `sec_to_time` from pyx.py lines 162-166: Python `divmod` is floor
division/modulus, so `Int.fdiv` / `Int.fmod` are used. -/
def sec_to_time (sec : ℤ) : String :=
  let m := Int.fdiv sec 60
  let s := Int.fmod sec 60
  let h := Int.fdiv m 60
  let m2 := Int.fmod m 60
  toString h ++ ":" ++ pad2 m2 ++ ":" ++ pad2 s

/-- `avg_last_vals` from pyx.py line 157: the size bound of the timing window. -/
def avg_last_vals : Nat := 10

/-- The push into `time_img` performed by pyx.py lines 264-268:
`del time_img[0]` followed by `append` when the window is full,
a plain `append` otherwise. -/
def timing_push (w : List ℚ) (x : ℚ) : List ℚ :=
  if w.length = avg_last_vals then w.tail ++ [x] else w ++ [x]

/-- Inputs read by `bar_redraw` (pyx.py lines 168-196): the globals it consults
plus the value `t.process_time()` returns at this redraw. -/
structure BarData where
  processTime : ℚ
  cur_file : Nat
  all_files : Nat
  warn_cnt : Nat
  err_cnt : Nat
  time_img : List ℚ

/-- The two time strings interpolated into the status line by `bar_redraw`. -/
structure BarRender where
  elapsed : String
  remaining : String

/-- `bar_redraw` from pyx.py lines 168-196, restricted to the elapsed and
remaining fields of the printed status line (the bar glyphs, colors and counter
text carry no timing content).  `t_pass = round(t.process_time())`; the
remaining time is the window average times the number of files left, rounded,
unless the window is empty or this is the final redraw. -/
def bar_redraw (d : BarData) (last : Bool) : BarRender :=
  let t_pass := pyRound d.processTime
  let remaining :=
    if 0 < d.time_img.length ∧ last = false then
      let t_avg : ℚ := d.time_img.sum / (d.time_img.length : ℚ)
      sec_to_time (pyRound (t_avg * ((d.all_files : ℚ) - (d.cur_file : ℚ))))
    else if last = false then "Calculating..."
    else sec_to_time 0
  { elapsed := sec_to_time t_pass, remaining := remaining }

/-- One filesystem entry enumerated by `path.glob(..)` in `get_file_list`:
its path components (as `Path.parts`) and whether it is a regular file. -/
structure FsEntry where
  parts : List String
  isFile : Bool
deriving DecidableEq

/-- `Path.name`: the last path component. -/
def entryName (e : FsEntry) : String := e.parts.getLastD ""

/-- Python `p.startswith(".")`: the first character of the string is a dot. -/
def startsWithDot (s : String) : Bool :=
  match s.data with
  | [] => false
  | c :: _ => c == '.'

/-- Python `"." in s`: the string contains a dot character. -/
def nameHasDot (s : String) : Bool := s.data.contains '.'

/-- The predicate applied by `exclude_hidden` (pyx.py lines 91-96): keep the
entry iff no path component starts with a dot.  The Python function returns
the (truthy) path or `False` and bumps the global `f_excluded`; the counter
is threaded explicitly by `filterTally` below. -/
def exclude_hidden (e : FsEntry) : Bool :=
  !(e.parts.any startsWithDot)

/-- The predicate applied by `with_extension` (pyx.py lines 100-105): keep the
entry iff it is a regular file whose name contains a dot. -/
def with_extension (e : FsEntry) : Bool :=
  e.isFile && nameHasDot (entryName e)

/-- Filtering with the `f_excluded` global made explicit: each rejected entry
increments the counter exactly once, as in `exclude_hidden`/`with_extension`. -/
def filterTally (f : FsEntry → Bool) : List FsEntry → Nat → List FsEntry × Nat
  | [], c => ([], c)
  | e :: es, c =>
    if f e then
      let r := filterTally f es c
      (e :: r.1, r.2)
    else
      let r := filterTally f es (c + 1)
      (r.1, r.2)

/-- The shape of the input path handed to `get_file_list`:
a directory (with the entries its recursive glob enumerates, each prefixed by
the root path), a regular file (with its path components), or anything else
(missing path, file object that is neither). -/
inductive RootKind
  | dir (entries : List FsEntry)
  | file (parts : List String)
  | notFound

/-- `get_file_list` from pyx.py lines 108-121, threading the `f_excluded`
counter.  The `else` branch prints and calls `sys.exit(1)`, modelled as
`Except.error 1`.  For a directory, the glob tree is filtered first by
`exclude_hidden`, then by `with_extension`. -/
def get_file_list : RootKind → Nat → Except Nat (List FsEntry × Nat)
  | .dir entries, c =>
    let r1 := filterTally exclude_hidden entries c
    .ok (filterTally with_extension r1.1 r1.2)
  | .file parts, c =>
    if nameHasDot (parts.getLastD "") then
      .ok ([{ parts := parts, isFile := true }], c)
    else .error 1
  | .notFound, _ => .error 1

/-- The command-line configuration consulted by the loop body
(`args.factor`, `args.scaling`). -/
structure Config where
  factor : Nat
  scaling : Nat

/-- Modelled from the spec: outcome of one strict-mode call of the opaque
conversion `p.convert` (the Pyxelate library is not part of the sources here;
the spec describes it as an opaque routine that may raise a structural
index/bounds error, a non-structural error/warning, or be interrupted). -/
inductive ConvertRes
  | ok
  | interrupt
  | indexError (msg : String)
  | otherError
deriving DecidableEq

/-- Outcome of one strict-mode call of the opaque encoder `io.imsave`. -/
inductive EncodeRes
  | ok
  | interrupt
  | otherError
deriving DecidableEq

/-- The warnings-filter mode in force during a call of the conversion or the
encoder: `warnings.filterwarnings("error")` (strict) versus
`warnings.filterwarnings("ignore")` (permissive). -/
inductive WarnMode
  | strict
  | permissive
deriving DecidableEq

/-- Oracle data for one image: what the opaque decode, first (strict) convert
call and first (strict) encode call would do, the source dimensions when decode
succeeds, and the wall-clock readings `t.time()` returns at line 269
(`tStart`) and line 336 (`tEnd`).  Modelled from the spec: the permissive
retry of convert/encode is described as always producing an accepted result. -/
structure ImgEvent where
  decodeOk : Bool
  srcH : Nat
  srcW : Nat
  conv1 : ConvertRes
  enc1 : EncodeRes
  tStart : ℚ
  tEnd : ℚ

/-- The mutable globals carried across iterations of the main loop:
pyx.py lines 153-156 plus the first-iteration marker `img_end in globals()`
(modelled as an `Option`) and the previous `img_start` reading. -/
structure LoopState where
  cur_file : Nat
  warn_cnt : Nat
  err_cnt : Nat
  time_img : List ℚ
  img_end : Option ℚ
  img_start : ℚ

/-- The state at program start. -/
def initState : LoopState :=
  { cur_file := 0, warn_cnt := 0, err_cnt := 0, time_img := [],
    img_end := none, img_start := 0 }

/-- Terminal state of one image in the batch driver. -/
inductive ImgStatus
  | completed
  | skipped
  | failed
  | cancelled
deriving DecidableEq

/-- The `transform.resize` invocation of pyx.py lines 315-320, with its target
dimensions and keyword arguments. -/
structure ResizeCall where
  targetH : Nat
  targetW : Nat
  order : Nat
  mode : String
  antiAliasing : Bool
  preserveRange : Bool
deriving DecidableEq

/-- Everything observable about one iteration of the main loop: the updated
globals, the image status, the modes of the convert and encode invocations
(in call order), which convert invocation produced the buffer that is carried
forward, the resize call if any, the buffer dimensions before and after the
resize branch, whether `print_err` printed a line, and a `sys.exit` code if
the iteration terminated the process. -/
structure StepOut where
  state : LoopState
  status : ImgStatus
  convModes : List WarnMode
  encModes : List WarnMode
  outputFrom : Option Nat
  resize : Option ResizeCall
  preDims : Option (Nat × Nat)
  outDims : Option (Nat × Nat)
  errLogged : Bool
  exitCode : Option Nat

/-- The tail of a successful conversion: resize branch (pyx.py lines 314-320)
and the strict-then-permissive encode (lines 322-334), then `img_end = t.time()`
and `cur_file += 1` (lines 336-337).  `s` already contains any warning bump
from the convert phase; `convModes`/`outputFrom` record the convert calls. -/
def finishImage (cfg : Config) (s : LoopState) (ev : ImgEvent)
    (convModes : List WarnMode) (outputFrom : Nat) (ph pw : Nat) : StepOut :=
  let resz : Option ResizeCall :=
    if 1 < cfg.scaling then
      some { targetH := ph * cfg.scaling, targetW := pw * cfg.scaling,
             order := 0, mode := "edge", antiAliasing := false,
             preserveRange := true }
    else none
  let outD := if 1 < cfg.scaling then (ph * cfg.scaling, pw * cfg.scaling)
    else (ph, pw)
  match ev.enc1 with
  | .interrupt =>
    { state := s, status := .cancelled, convModes := convModes,
      encModes := [.strict], outputFrom := some outputFrom, resize := resz,
      preDims := some (ph, pw), outDims := some outD, errLogged := false,
      exitCode := some 0 }
  | .otherError =>
    let s2 : LoopState :=
      { s with warn_cnt := s.warn_cnt + 1, img_end := some ev.tEnd,
               cur_file := s.cur_file + 1 }
    { state := s2, status := .completed, convModes := convModes,
      encModes := [.strict, .permissive], outputFrom := some outputFrom,
      resize := resz, preDims := some (ph, pw), outDims := some outD,
      errLogged := false, exitCode := none }
  | .ok =>
    { state := { s with img_end := some ev.tEnd, cur_file := s.cur_file + 1 },
      status := .completed, convModes := convModes, encModes := [.strict],
      outputFrom := some outputFrom, resize := resz, preDims := some (ph, pw),
      outDims := some outD, errLogged := false, exitCode := none }

/-- One iteration of the `for image_file in image_files` loop
(pyx.py lines 256-337):

* lines 263-268: if `img_end` exists, push `round(img_end - img_start, 1)`
  into the timing window;
* line 269: `img_start = t.time()`;
* lines 272-279: decode; a `ValueError` skips the file;
* lines 288-292: dimensions, `p.height = height // factor` and likewise width;
* lines 294-311: strict convert; `KeyboardInterrupt` exits 0, `IndexError`
  counts an error, logs it via `print_err` (which prints only when the message
  is non-empty, line 207) and continues, any other raise counts a warning and
  re-invokes convert permissively, keeping the second result;
* the rest via `finishImage`. -/
def stepImage (cfg : Config) (s : LoopState) (ev : ImgEvent) : StepOut :=
  let tw :=
    match s.img_end with
    | some e => timing_push s.time_img (pyRound1 (e - s.img_start))
    | none => s.time_img
  let s1 : LoopState := { s with time_img := tw, img_start := ev.tStart }
  if ev.decodeOk = false then
    { state := s1, status := .skipped, convModes := [], encModes := [],
      outputFrom := none, resize := none, preDims := none, outDims := none,
      errLogged := false, exitCode := none }
  else
    let ph := ev.srcH / cfg.factor
    let pw := ev.srcW / cfg.factor
    match ev.conv1 with
    | .interrupt =>
      { state := s1, status := .cancelled, convModes := [.strict],
        encModes := [], outputFrom := none, resize := none, preDims := none,
        outDims := none, errLogged := false, exitCode := some 0 }
    | .indexError msg =>
      { state := { s1 with err_cnt := s1.err_cnt + 1 }, status := .failed,
        convModes := [.strict], encModes := [], outputFrom := none,
        resize := none, preDims := none, outDims := none,
        errLogged := msg != "", exitCode := none }
    | .otherError =>
      finishImage cfg { s1 with warn_cnt := s1.warn_cnt + 1 } ev
        [.strict, .permissive] 2 ph pw
    | .ok =>
      finishImage cfg s1 ev [.strict] 1 ph pw

/-- The whole loop over `image_files`: the final state, the statuses of the
processed images, and the process exit code (0 when the loop runs to
completion and the script falls off the end). -/
def runBatch (cfg : Config) : LoopState → List ImgEvent → LoopState × List ImgStatus × Nat
  | s, [] => (s, [], 0)
  | s, ev :: rest =>
    let o := stepImage cfg s ev
    match o.exitCode with
    | some c => (o.state, [o.status], c)
    | none =>
      let r := runBatch cfg o.state rest
      (r.1, o.status :: r.2.1, r.2.2)

/-- Observable result of one whole run of the script. -/
structure RunResult where
  exitCode : Nat
  excluded : Nat
  finalState : LoopState
  statuses : List ImgStatus

/-- The `__main__` block of pyx.py (lines 213-339), up to terminal decoration:
resolve the file list (which may `sys.exit(1)`), exit 1 if it is empty
(lines 228-233), otherwise run the loop over the resolved files, each file
behaving as the oracle `beh` prescribes. -/
def pyxMain (cfg : Config) (root : RootKind) (beh : FsEntry → ImgEvent) : RunResult :=
  match get_file_list root 0 with
  | .error c =>
    { exitCode := c, excluded := 0, finalState := initState, statuses := [] }
  | .ok (files, excl) =>
    if files.isEmpty then
      { exitCode := 1, excluded := excl, finalState := initState, statuses := [] }
    else
      let r := runBatch cfg initState (files.map beh)
      { exitCode := r.2.2, excluded := excl, finalState := r.1,
        statuses := r.2.1 }

/-! ### Helper lemmas -/

theorem timing_push_length_le (w : List ℚ) (x : ℚ) (h : w.length ≤ 10) :
    (timing_push w x).length ≤ 10 := by
  unfold timing_push avg_last_vals
  split
  · next h10 => simp [h10]
  · next hne => simp; omega

theorem foldl_timing_push_length (xs : List ℚ) :
    ∀ w : List ℚ, w.length ≤ 10 → (xs.foldl timing_push w).length ≤ 10 := by
  induction xs with
  | nil => intro w h; simpa using h
  | cons x xs ih => intro w h; simpa using ih _ (timing_push_length_le w x h)

theorem filterTally_length (f : FsEntry → Bool) :
    ∀ (es : List FsEntry) (c : Nat),
      (filterTally f es c).1.length + (filterTally f es c).2 = es.length + c := by
  intro es
  induction es with
  | nil => intro c; simp [filterTally]
  | cons e es ih =>
    intro c
    by_cases h : f e
    · have := ih c
      simp [filterTally, h]
      omega
    · have := ih (c + 1)
      simp [filterTally, h]
      omega

/-! ### Claim C3: the timing window is bounded by 10 and evicts FIFO -/

/-- C3: the timing window never holds more than 10 entries, and eviction is
FIFO: starting from the empty window, after the 11th push the 1st entry is
gone and entries 2 through 11 remain in their original order. -/
theorem c3_timing_window_bounded_fifo :
    (∀ xs : List ℚ, (xs.foldl timing_push []).length ≤ 10) ∧
    (∀ x1 x2 x3 x4 x5 x6 x7 x8 x9 x10 x11 : ℚ,
      [x1, x2, x3, x4, x5, x6, x7, x8, x9, x10, x11].foldl timing_push [] =
        [x2, x3, x4, x5, x6, x7, x8, x9, x10, x11]) := by
  constructor
  · intro xs
    exact foldl_timing_push_length xs [] (by simp)
  · intro x1 x2 x3 x4 x5 x6 x7 x8 x9 x10 x11
    norm_num [timing_push, avg_last_vals]

/-! ### Claim C5: task count plus exclusion count equals entry count -/

/-- C5: for every directory tree, the number of tasks returned by
`get_file_list` plus the final exclusion counter equals the number of
filesystem entries enumerated under the root: each entry either becomes a
task or bumps the exclusion counter exactly once. -/
theorem c5_resolver_conservation (entries : List FsEntry) :
    ∃ tasks excl, get_file_list (.dir entries) 0 = .ok (tasks, excl) ∧
      tasks.length + excl = entries.length := by
  refine ⟨(filterTally with_extension (filterTally exclude_hidden entries 0).1
      (filterTally exclude_hidden entries 0).2).1,
    (filterTally with_extension (filterTally exclude_hidden entries 0).1
      (filterTally exclude_hidden entries 0).2).2, rfl, ?_⟩
  have h1 := filterTally_length exclude_hidden entries 0
  have h2 := filterTally_length with_extension
    (filterTally exclude_hidden entries 0).1 (filterTally exclude_hidden entries 0).2
  omega

/-! ### Claim C6: the four-entry directory scenario -/

/-- The directory of the C6 scenario.  `path.glob` with a recursive pattern
enumerates the hidden directory `.hidden` itself as well as the file inside
it, so the tree has five entries, not four. -/
def c6Entries : List FsEntry :=
  [ { parts := ["a.png"], isFile := true },
    { parts := ["b.txt"], isFile := true },
    { parts := [".hidden"], isFile := false },
    { parts := [".hidden", "c.png"], isFile := true },
    { parts := ["d"], isFile := true } ]

/-- Default configuration (factor 5, scaling 5). -/
def c6Cfg : Config := { factor := 5, scaling := 5 }

/-- Oracle for `a.png`: decode, convert and encode all succeed. -/
def c6EventGood : ImgEvent :=
  { decodeOk := true, srcH := 10, srcW := 10, conv1 := .ok, enc1 := .ok,
    tStart := 0, tEnd := 1 }

/-- Oracle for `b.txt`: `io.imread` raises `ValueError`. -/
def c6EventBad : ImgEvent :=
  { decodeOk := false, srcH := 0, srcW := 0, conv1 := .ok, enc1 := .ok,
    tStart := 2, tEnd := 0 }

/-- Per-file behaviour for the C6 scenario. -/
def c6Beh (e : FsEntry) : ImgEvent :=
  if entryName e = "a.png" then c6EventGood else c6EventBad

/-- C6, counterexample: on the scenario directory the final exclusion count is
3, not 2 as claimed — the recursive glob also enumerates the hidden directory
`.hidden` itself, which `exclude_hidden` counts in addition to
`.hidden/c.png` and `d`. -/
theorem c6_exclusion_count_counterexample :
    (pyxMain c6Cfg (.dir c6Entries) c6Beh).excluded = 3 ∧
    ¬ (pyxMain c6Cfg (.dir c6Entries) c6Beh).excluded = 2 := by
  exact ⟨rfl, by decide⟩

/-- C6 (amended): the scenario run processes `a.png` successfully, skips
`b.txt`, ends with exclusion count 3 (the enumerated entry `.hidden` itself,
`.hidden/c.png`, and `d`), ends with completed-counter 1, and exits 0. -/
theorem c6_scenario_run :
    (pyxMain c6Cfg (.dir c6Entries) c6Beh).exitCode = 0 ∧
    (pyxMain c6Cfg (.dir c6Entries) c6Beh).excluded = 3 ∧
    (pyxMain c6Cfg (.dir c6Entries) c6Beh).statuses = [.completed, .skipped] ∧
    (pyxMain c6Cfg (.dir c6Entries) c6Beh).finalState.cur_file = 1 := by
  refine ⟨rfl, rfl, rfl, rfl⟩

/-! ### Claim C1: strict-then-permissive one-retry, for convert and encode -/

/-- C1: for every image whose conversion raises a non-structural error or
warning on the first (strict-mode) attempt, the conversion is re-invoked
exactly once more in permissive mode, the second invocation produces the
buffer carried forward, and the warning counter is incremented (the encode
phase may add a further warning of its own); independently, any strict-mode
encode failure triggers exactly one permissive encode retry whose result is
accepted unconditionally. -/
theorem c1_strict_then_permissive_retry (cfg : Config) (s : LoopState)
    (ev : ImgEvent) (hd : ev.decodeOk = true) :
    (ev.conv1 = .otherError →
      (stepImage cfg s ev).convModes = [.strict, .permissive] ∧
      (stepImage cfg s ev).outputFrom = some 2 ∧
      (stepImage cfg s ev).state.warn_cnt =
        s.warn_cnt + 1 + (if ev.enc1 = .otherError then 1 else 0)) ∧
    ((ev.conv1 = .ok ∨ ev.conv1 = .otherError) → ev.enc1 = .otherError →
      (stepImage cfg s ev).encModes = [.strict, .permissive] ∧
      (stepImage cfg s ev).status = .completed) := by
  constructor
  · intro hc
    cases he : ev.enc1 <;>
      simp [stepImage, hd, hc, he, finishImage]
  · rintro (hc | hc) he <;>
      simp [stepImage, hd, hc, he, finishImage]

/-- Witness for C1 at a concrete input: decode succeeds, the strict convert
raises a non-structural error, and the strict encode also fails. -/
theorem c1_strict_then_permissive_retry_witness :
    (stepImage ⟨5, 5⟩ initState
        ⟨true, 10, 10, .otherError, .otherError, 0, 1⟩).convModes =
      [.strict, .permissive] ∧
    (stepImage ⟨5, 5⟩ initState
        ⟨true, 10, 10, .otherError, .otherError, 0, 1⟩).outputFrom = some 2 ∧
    (stepImage ⟨5, 5⟩ initState
        ⟨true, 10, 10, .otherError, .otherError, 0, 1⟩).state.warn_cnt = 2 ∧
    (stepImage ⟨5, 5⟩ initState
        ⟨true, 10, 10, .otherError, .otherError, 0, 1⟩).encModes =
      [.strict, .permissive] ∧
    (stepImage ⟨5, 5⟩ initState
        ⟨true, 10, 10, .otherError, .otherError, 0, 1⟩).status = .completed := by
  have h := c1_strict_then_permissive_retry ⟨5, 5⟩ initState
    ⟨true, 10, 10, .otherError, .otherError, 0, 1⟩ rfl
  have h1 := h.1 rfl
  have h2 := h.2 (Or.inr rfl) rfl
  exact ⟨h1.1, h1.2.1, by simpa [initState] using h1.2.2, h2.1, h2.2⟩

/-! ### Claim C2: structural errors are fatal, no retry -/

/-- C2, counterexample: conversion raises an `IndexError` whose message is the
empty string.  The outcome is fatal (no retry, error counter bumped, batch
continues), but nothing is logged: `print_err` (pyx.py line 207) prints only
when `str(err)` is non-empty, so the claim that the error is logged fails on
this input. -/
theorem c2_unlogged_error_counterexample :
    (stepImage ⟨5, 5⟩ initState
        ⟨true, 10, 10, .indexError "", .ok, 0, 1⟩).status = .failed ∧
    (stepImage ⟨5, 5⟩ initState
        ⟨true, 10, 10, .indexError "", .ok, 0, 1⟩).state.err_cnt = 1 ∧
    (stepImage ⟨5, 5⟩ initState
        ⟨true, 10, 10, .indexError "", .ok, 0, 1⟩).convModes = [.strict] ∧
    (stepImage ⟨5, 5⟩ initState
        ⟨true, 10, 10, .indexError "", .ok, 0, 1⟩).errLogged = false := by
  exact ⟨rfl, rfl, rfl, rfl⟩

/-- C2 (amended): for every image whose conversion raises an index/bounds
error on the first attempt, the outcome is fatal with no second conversion
invocation (the convert call list is exactly the one strict call), the error
counter is incremented, the error is logged exactly when its message is
non-empty, and the batch continues with the next file. -/
theorem c2_fatal_error_no_retry (cfg : Config) (s : LoopState) (ev : ImgEvent)
    (msg : String) (hd : ev.decodeOk = true)
    (hc : ev.conv1 = .indexError msg) :
    (stepImage cfg s ev).convModes = [.strict] ∧
    (stepImage cfg s ev).state.err_cnt = s.err_cnt + 1 ∧
    (stepImage cfg s ev).status = .failed ∧
    (stepImage cfg s ev).errLogged = (msg != "") ∧
    (stepImage cfg s ev).exitCode = none ∧
    (∀ rest, (runBatch cfg s (ev :: rest)).2.1 =
      .failed :: (runBatch cfg (stepImage cfg s ev).state rest).2.1) := by
  refine ⟨?_, ?_, ?_, ?_, ?_, fun rest => ?_⟩ <;>
    simp [runBatch, stepImage, hd, hc]

/-- Witness for C2 at a concrete input with a non-empty error message. -/
theorem c2_fatal_error_no_retry_witness :
    (stepImage ⟨5, 5⟩ initState
        ⟨true, 10, 10, .indexError "boom", .ok, 0, 1⟩).convModes = [.strict] ∧
    (stepImage ⟨5, 5⟩ initState
        ⟨true, 10, 10, .indexError "boom", .ok, 0, 1⟩).state.err_cnt = 1 ∧
    (stepImage ⟨5, 5⟩ initState
        ⟨true, 10, 10, .indexError "boom", .ok, 0, 1⟩).status = .failed ∧
    (stepImage ⟨5, 5⟩ initState
        ⟨true, 10, 10, .indexError "boom", .ok, 0, 1⟩).errLogged =
      ("boom" != "") := by
  have h := c2_fatal_error_no_retry ⟨5, 5⟩ initState
    ⟨true, 10, 10, .indexError "boom", .ok, 0, 1⟩ "boom" rfl rfl
  exact ⟨h.1, by simpa [initState] using h.2.1, h.2.2.1, h.2.2.2.1⟩

/-! ### Claim C9: the resize step -/

/-- C9: when an image reaches the resize step, `transform.resize` is invoked
iff the configured upscale factor is greater than 1; its target dimensions are
the downscaled dimensions times the upscale factor, with order 0
(nearest-neighbor), edge mode, no anti-aliasing and preserved value range;
the pre-resize buffer has the downscaled dimensions
`(src_height // factor, src_width // factor)`. -/
theorem c9_resize_iff (cfg : Config) (s : LoopState) (ev : ImgEvent)
    (hd : ev.decodeOk = true) (hc : ev.conv1 = .ok ∨ ev.conv1 = .otherError) :
    ((stepImage cfg s ev).resize.isSome ↔ 1 < cfg.scaling) ∧
    (stepImage cfg s ev).preDims =
      some (ev.srcH / cfg.factor, ev.srcW / cfg.factor) ∧
    (1 < cfg.scaling →
      (stepImage cfg s ev).resize = some
        { targetH := ev.srcH / cfg.factor * cfg.scaling,
          targetW := ev.srcW / cfg.factor * cfg.scaling,
          order := 0, mode := "edge", antiAliasing := false,
          preserveRange := true } ∧
      (stepImage cfg s ev).outDims = some
        (ev.srcH / cfg.factor * cfg.scaling,
         ev.srcW / cfg.factor * cfg.scaling)) ∧
    (¬ 1 < cfg.scaling →
      (stepImage cfg s ev).resize = none ∧
      (stepImage cfg s ev).outDims = (stepImage cfg s ev).preDims) := by
  rcases hc with hc | hc <;> cases he : ev.enc1 <;>
    by_cases hs : 1 < cfg.scaling <;>
      simp [stepImage, hd, hc, he, finishImage, hs]

/-- Witness for C9: downscale factor 5, upscale factor 4, source 1000 wide by
500 high; the pre-resize buffer is 100 by 200 (height by width) and the
post-resize buffer is 400 by 800. -/
theorem c9_resize_iff_witness :
    (stepImage ⟨5, 4⟩ initState
        ⟨true, 500, 1000, .ok, .ok, 0, 1⟩).preDims = some (100, 200) ∧
    (stepImage ⟨5, 4⟩ initState
        ⟨true, 500, 1000, .ok, .ok, 0, 1⟩).outDims = some (400, 800) ∧
    (stepImage ⟨5, 4⟩ initState
        ⟨true, 500, 1000, .ok, .ok, 0, 1⟩).resize.isSome = true := by
  have h := c9_resize_iff ⟨5, 4⟩ initState
    ⟨true, 500, 1000, .ok, .ok, 0, 1⟩ rfl (Or.inl rfl)
  refine ⟨by simpa using h.2.1, ?_, by simp [h.1]⟩
  have h2 := (h.2.2.1 (by norm_num)).2
  simpa using h2

/-! ### Claim C4: what gets pushed into the timing window, and the counter -/

theorem stepImage_time_img (cfg : Config) (s : LoopState) (ev : ImgEvent) :
    (stepImage cfg s ev).state.time_img =
      (match s.img_end with
       | some e => timing_push s.time_img (pyRound1 (e - s.img_start))
       | none => s.time_img) ∧
    (stepImage cfg s ev).state.img_start = ev.tStart := by
  cases hd : ev.decodeOk <;> cases hc : ev.conv1 <;> cases he : ev.enc1 <;>
    simp [stepImage, hd, hc, he, finishImage]

theorem stepImage_completed_ends (cfg : Config) (s : LoopState) (ev : ImgEvent)
    (h : (stepImage cfg s ev).status = .completed) :
    (stepImage cfg s ev).state.img_end = some ev.tEnd ∧
    (stepImage cfg s ev).state.img_start = ev.tStart := by
  cases hd : ev.decodeOk <;> cases hc : ev.conv1 <;> cases he : ev.enc1 <;>
    simp [stepImage, hd, hc, he, finishImage] at h ⊢

theorem stepImage_cur_file (cfg : Config) (s : LoopState) (ev : ImgEvent) :
    (stepImage cfg s ev).state.cur_file =
      s.cur_file +
        if (stepImage cfg s ev).status = .completed then 1 else 0 := by
  cases hd : ev.decodeOk <;> cases hc : ev.conv1 <;> cases he : ev.enc1 <;>
    simp [stepImage, hd, hc, he, finishImage]

/-- C4, counterexample: run three images — a success timed 0 to 10, then a
file skipped at decode whose iteration starts at time 20, then a success
timed 30 to 40.  The iteration of the third image pushes
`round(img_end - img_start, 1) = 10 - 20 = -10` into the window: `img_end`
is the stale completion time of the first image while `img_start` is the
start of the skipped iteration.  No image has elapsed time -10 (both
completed images took 10), so the pushed duration is not the elapsed time of
a just-completed image as the claim states. -/
theorem c4_stale_push_counterexample :
    (runBatch ⟨5, 5⟩ initState
        [⟨true, 10, 10, .ok, .ok, 0, 10⟩,
         ⟨false, 0, 0, .ok, .ok, 20, 0⟩,
         ⟨true, 10, 10, .ok, .ok, 30, 40⟩]).1.time_img = [10, -10] ∧
    ¬ ((-10 : ℚ) = pyRound1 ((10 : ℚ) - 0)) ∧
    ¬ ((-10 : ℚ) = pyRound1 ((40 : ℚ) - 30)) := by
  refine ⟨?_, by norm_num [pyRound1, pyRound], by norm_num [pyRound1, pyRound]⟩
  norm_num [runBatch, stepImage, finishImage, timing_push, avg_last_vals,
    initState, pyRound1, pyRound]

/-- C4 (amended): at each loop iteration whose previous iteration completed
an image successfully, the duration pushed into the timing window equals that
image's elapsed time (end minus start, rounded to one decimal), computed
before the iteration stores the next image's start time; when the previous
iteration was skipped or failed the push instead pairs the stale completion
time of the last success with the previous iteration's start.  The
completed-file counter advances exactly on successful completion, never on a
skipped or failed image. -/
theorem c4_timing_and_counter (cfg : Config) (s : LoopState)
    (e1 e2 : ImgEvent) (h : (stepImage cfg s e1).status = .completed) :
    (stepImage cfg (stepImage cfg s e1).state e2).state.time_img =
      timing_push (stepImage cfg s e1).state.time_img
        (pyRound1 (e1.tEnd - e1.tStart)) ∧
    (stepImage cfg (stepImage cfg s e1).state e2).state.img_start =
      e2.tStart ∧
    (∀ s2 ev, (stepImage cfg s2 ev).state.cur_file =
      s2.cur_file +
        if (stepImage cfg s2 ev).status = .completed then 1 else 0) := by
  obtain ⟨hend, hstart⟩ := stepImage_completed_ends cfg s e1 h
  obtain ⟨ht, hs2⟩ := stepImage_time_img cfg (stepImage cfg s e1).state e2
  refine ⟨?_, hs2, fun s2 ev => stepImage_cur_file cfg s2 ev⟩
  rw [ht, hend, hstart]

/-- Witness for C4: a successfully completed image timed 0 to 10 followed by
any second image; the second iteration pushes exactly 10. -/
theorem c4_timing_and_counter_witness :
    (stepImage ⟨5, 5⟩
        (stepImage ⟨5, 5⟩ initState ⟨true, 10, 10, .ok, .ok, 0, 10⟩).state
        ⟨true, 10, 10, .ok, .ok, 20, 30⟩).state.time_img =
      timing_push
        (stepImage ⟨5, 5⟩ initState
          ⟨true, 10, 10, .ok, .ok, 0, 10⟩).state.time_img
        (pyRound1 ((10 : ℚ) - 0)) := by
  exact (c4_timing_and_counter ⟨5, 5⟩ initState
    ⟨true, 10, 10, .ok, .ok, 0, 10⟩ ⟨true, 10, 10, .ok, .ok, 20, 30⟩ rfl).1

/-! ### Claim C10: a hidden component in the root path excludes everything -/

theorem filterTally_all_false (f : FsEntry → Bool) :
    ∀ (es : List FsEntry) (c : Nat), (∀ e ∈ es, f e = false) →
      filterTally f es c = ([], c + es.length) := by
  intro es
  induction es with
  | nil => intro c _; simp [filterTally]
  | cons e es ih =>
    intro c h
    have he := h e (by simp)
    have hrest := ih (c + 1) (fun x hx => h x (by simp [hx]))
    simp [filterTally, he, hrest]
    omega

/-- C10: if the root is a directory whose own path contains a component
beginning with a dot, then — since every enumerated candidate path starts
with the root's components and `exclude_hidden` tests every component of the
full path — every entry is excluded, the resolver returns an empty task
list, and the process exits with status 1 without processing any file. -/
theorem c10_hidden_root_dir (cfg : Config) (beh : FsEntry → ImgEvent)
    (rootParts : List String) (entries : List FsEntry)
    (h1 : ∃ p ∈ rootParts, startsWithDot p = true)
    (h2 : ∀ e ∈ entries, ∃ rest, e.parts = rootParts ++ rest) :
    get_file_list (.dir entries) 0 = .ok ([], entries.length) ∧
    (pyxMain cfg (.dir entries) beh).exitCode = 1 ∧
    (pyxMain cfg (.dir entries) beh).statuses = [] := by
  obtain ⟨p, hp, hdot⟩ := h1
  have hall : ∀ e ∈ entries, exclude_hidden e = false := by
    intro e he
    obtain ⟨rest, hrest⟩ := h2 e he
    have hmem : p ∈ e.parts := by
      rw [hrest]
      exact List.mem_append_left _ hp
    simp [exclude_hidden, List.any_eq_true]
    exact ⟨p, hmem, hdot⟩
  have hft := filterTally_all_false exclude_hidden entries 0 hall
  have hgl : get_file_list (.dir entries) 0 = .ok ([], entries.length) := by
    simp [get_file_list, hft, filterTally]
  exact ⟨hgl, by simp [pyxMain, hgl], by simp [pyxMain, hgl]⟩

/-- Witness for C10: a root directory named `.cfg` containing a single image
file; nothing is processed and the exit status is 1. -/
theorem c10_hidden_root_dir_witness :
    get_file_list (.dir [⟨[".cfg", "x.png"], true⟩]) 0 = .ok ([], 1) ∧
    (pyxMain ⟨5, 5⟩ (.dir [⟨[".cfg", "x.png"], true⟩])
      (fun _ => ⟨true, 10, 10, .ok, .ok, 0, 1⟩)).exitCode = 1 ∧
    (pyxMain ⟨5, 5⟩ (.dir [⟨[".cfg", "x.png"], true⟩])
      (fun _ => ⟨true, 10, 10, .ok, .ok, 0, 1⟩)).statuses = [] := by
  exact c10_hidden_root_dir ⟨5, 5⟩ _ [".cfg"] _
    ⟨".cfg", by simp, rfl⟩
    (by
      intro e he
      simp at he
      exact ⟨["x.png"], by simp [he]⟩)

/-! ### Claim C7: process exit codes -/

theorem stepImage_exitCode (cfg : Config) (s : LoopState) (ev : ImgEvent) :
    (stepImage cfg s ev).exitCode = none ∨
    (stepImage cfg s ev).exitCode = some 0 := by
  cases hd : ev.decodeOk <;> cases hc : ev.conv1 <;> cases he : ev.enc1 <;>
    simp [stepImage, hd, hc, he, finishImage]

theorem runBatch_code_zero (cfg : Config) :
    ∀ (evs : List ImgEvent) (s : LoopState), (runBatch cfg s evs).2.2 = 0 := by
  intro evs
  induction evs with
  | nil => intro s; simp [runBatch]
  | cons ev rest ih =>
    intro s
    rcases stepImage_exitCode cfg s ev with h | h <;> simp [runBatch, h, ih]

/-- C7: the process exit code is always 0 or 1; it is 1 exactly when the
input path is not found, is a single file without a dot in its name, or
resolves to an empty task list; and a run containing a cancellation exits
with 0 (so does every run that reaches the loop). -/
theorem c7_exit_codes (cfg : Config) (root : RootKind)
    (beh : FsEntry → ImgEvent) :
    ((pyxMain cfg root beh).exitCode = 0 ∨
      (pyxMain cfg root beh).exitCode = 1) ∧
    ((pyxMain cfg root beh).exitCode = 1 ↔
      (root = .notFound ∨
       (∃ ps, root = .file ps ∧ nameHasDot (ps.getLastD "") = false) ∨
       (∃ excl, get_file_list root 0 = .ok ([], excl)))) ∧
    (ImgStatus.cancelled ∈ (pyxMain cfg root beh).statuses →
      (pyxMain cfg root beh).exitCode = 0) := by
  rcases root with entries | ps | _
  · rcases hgl : filterTally with_extension
      (filterTally exclude_hidden entries 0).1
      (filterTally exclude_hidden entries 0).2 with ⟨tasks, excl⟩
    have hg : get_file_list (.dir entries) 0 = .ok (tasks, excl) := by
      simp [get_file_list, hgl]
    cases tasks with
    | nil =>
      have h1 : (pyxMain cfg (.dir entries) beh).exitCode = 1 := by
        simp [pyxMain, hg]
      have hst : (pyxMain cfg (.dir entries) beh).statuses = [] := by
        simp [pyxMain, hg]
      refine ⟨Or.inr h1, ⟨fun _ => Or.inr (Or.inr ⟨excl, hg⟩), fun _ => h1⟩,
        fun hmem => ?_⟩
      rw [hst] at hmem
      cases hmem
    | cons t ts =>
      have h0 : (pyxMain cfg (.dir entries) beh).exitCode = 0 := by
        simp [pyxMain, hg, runBatch_code_zero]
      refine ⟨Or.inl h0, ⟨fun h => absurd (h0.symm.trans h) (by simp), ?_⟩,
        fun _ => h0⟩
      rintro (heq | ⟨ps', heq, _⟩ | ⟨excl', hex⟩)
      · cases heq
      · cases heq
      · rw [hg] at hex
        simp at hex
  · by_cases hdot : nameHasDot (ps.getLastD "") = true
    · have hg : get_file_list (.file ps) 0 = .ok ([⟨ps, true⟩], 0) := by
        rw [get_file_list, if_pos hdot]
      have h0 : (pyxMain cfg (.file ps) beh).exitCode = 0 := by
        simp [pyxMain, hg, runBatch_code_zero]
      refine ⟨Or.inl h0, ⟨fun h => absurd (h0.symm.trans h) (by simp), ?_⟩,
        fun _ => h0⟩
      rintro (heq | ⟨ps', heq, hd'⟩ | ⟨excl', hex⟩)
      · cases heq
      · injection heq with hps
        subst hps
        rw [hd'] at hdot
        cases hdot
      · rw [hg] at hex
        simp at hex
    · have hdf : nameHasDot (ps.getLastD "") = false := by
        simpa using hdot
      have hg : get_file_list (.file ps) 0 = .error 1 := by
        rw [get_file_list, if_neg hdot]
      have h1 : (pyxMain cfg (.file ps) beh).exitCode = 1 := by
        simp [pyxMain, hg]
      have hst : (pyxMain cfg (.file ps) beh).statuses = [] := by
        simp [pyxMain, hg]
      refine ⟨Or.inr h1, ⟨fun _ => Or.inr (Or.inl ⟨ps, rfl, hdf⟩),
        fun _ => h1⟩, fun hmem => ?_⟩
      rw [hst] at hmem
      cases hmem
  · refine ⟨Or.inr rfl, ⟨fun _ => Or.inl rfl, fun _ => rfl⟩, fun hmem => ?_⟩
    have hst : (pyxMain cfg .notFound beh).statuses = [] := rfl
    rw [hst] at hmem
    cases hmem

/-- Witness for C7: a cancellation run — a single valid file whose conversion
is interrupted — exits with status 0. -/
theorem c7_exit_codes_witness :
    ImgStatus.cancelled ∈ (pyxMain ⟨5, 5⟩ (.file ["x.png"])
      (fun _ => ⟨true, 10, 10, .interrupt, .ok, 0, 1⟩)).statuses ∧
    (pyxMain ⟨5, 5⟩ (.file ["x.png"])
      (fun _ => ⟨true, 10, 10, .interrupt, .ok, 0, 1⟩)).exitCode = 0 := by
  refine ⟨by decide, ?_⟩
  exact (c7_exit_codes ⟨5, 5⟩ (.file ["x.png"])
    (fun _ => ⟨true, 10, 10, .interrupt, .ok, 0, 1⟩)).2.2 (by decide)

/-! ### Claim C8: the elapsed and remaining fields of the status line -/

/-- Status-bar inputs used in the C8 instances: process CPU time 0, one of
two files done, a window holding a single 5 second entry. -/
def c8WinData : BarData := ⟨0, 1, 2, 0, 0, [5]⟩

/-- Status-bar inputs with an empty timing window. -/
def c8EmptyData : BarData := ⟨0, 1, 2, 0, 0, []⟩

/-- C8, counterexample: on the final redraw (`bar_redraw(1)` at pyx.py
line 339 or after a cancellation) the remaining field is `sec_to_time(0)`
even though the timing window is non-empty, so it does not equal the
window-average projection the claim prescribes for every redraw (which here
evaluates to five seconds). -/
theorem c8_final_redraw_counterexample :
    (bar_redraw c8WinData true).remaining = "0:00:00" ∧
    ¬ ("0:00:00" =
      sec_to_time (pyRound (c8WinData.time_img.sum /
        (c8WinData.time_img.length : ℚ) *
        ((c8WinData.all_files : ℚ) - (c8WinData.cur_file : ℚ))))) := by
  constructor
  · rfl
  · have h5 : pyRound (c8WinData.time_img.sum /
        (c8WinData.time_img.length : ℚ) *
        ((c8WinData.all_files : ℚ) - (c8WinData.cur_file : ℚ))) = 5 := by
      norm_num [c8WinData, pyRound]
    rw [h5]
    decide

/-- C8 (amended): on every non-final redraw, the remaining field is the
placeholder `Calculating...` when the timing window is empty and otherwise
the window average times the number of files left, rounded and rendered
`H:MM:SS`; on the final redraw the remaining field is always `0:00:00`; and
on every redraw the elapsed field is the rounded process CPU time reading,
rendered `H:MM:SS`. -/
theorem c8_status_line_times (d : BarData) :
    (d.time_img = [] → (bar_redraw d false).remaining = "Calculating...") ∧
    (d.time_img ≠ [] → (bar_redraw d false).remaining =
      sec_to_time (pyRound (d.time_img.sum / (d.time_img.length : ℚ) *
        ((d.all_files : ℚ) - (d.cur_file : ℚ))))) ∧
    (∀ last, (bar_redraw d last).elapsed = sec_to_time (pyRound d.processTime)) ∧
    (bar_redraw d true).remaining = sec_to_time 0 := by
  refine ⟨fun h => by simp [bar_redraw, h], fun h => ?_, fun last => rfl, ?_⟩
  · have hlen : 0 < d.time_img.length := List.length_pos.mpr h
    simp [bar_redraw, hlen]
  · simp [bar_redraw]

/-- Witness for C8 at the two concrete inputs: an empty window displays the
placeholder, a window holding a single 5 while one of two files is done
displays the average projection. -/
theorem c8_status_line_times_witness :
    (bar_redraw c8EmptyData false).remaining = "Calculating..." ∧
    (bar_redraw c8WinData false).remaining =
      sec_to_time (pyRound (c8WinData.time_img.sum /
        (c8WinData.time_img.length : ℚ) *
        ((c8WinData.all_files : ℚ) - (c8WinData.cur_file : ℚ)))) := by
  exact ⟨(c8_status_line_times c8EmptyData).1 rfl,
    (c8_status_line_times c8WinData).2.1 (by simp [c8WinData])⟩

end Pyx
